import Mathlib

/-!
# proxy-server: path-routed reverse proxy

A shallow embedding of `internal/proxy/mulproxy.go`, `internal/proxy/proxy.go`
and the registration loop of `main.go`.

Conventions of the embedding:

* a Go `string` is a `List Char` (`GoString`); the separators and the texts
  searched for are ASCII, so splitting and searching by character agrees with
  Go's splitting and searching by byte;
* a `*DomainProxyConfig` is the descriptor it points to: `main`, the caller of
  `AddDomain`, passes the address of a fresh struct;
* a Go `map[string]T` is a function `GoString → Option T` (absent key = `none`);
* `*http.Request` is mutated in place by the Go code; here every function
  returns the request as it is after the call;
* `log.Printf` calls write to the process log only and are left out;
* `http.Error(w, msg, code)` writes status `code` and the body `msg` followed
  by a newline (`httpError`); the headers it sets on the error response
  are left out.
-/

namespace ProxyServer

/-- A Go string, as its sequence of characters. -/
abbrev GoString := List Char

/-! ## The functions of package `strings` the proxy calls -/

/-- Go `strings.HasPrefix(s, pre)`. -/
def HasPrefix (s pre : GoString) : Bool := pre.isPrefixOf s

/-- Go `strings.HasSuffix(s, suf)`. -/
def HasSuffix (s suf : GoString) : Bool := suf.isSuffixOf s

/-- Go `strings.TrimPrefix(s, pre)`: `s` without the leading `pre`, or `s`
itself when it does not start with `pre`. -/
def TrimPrefix (s pre : GoString) : GoString :=
  if HasPrefix s pre then s.drop pre.length else s

/-- Go `strings.Split(s, sep)` for a separator `sep` of one character (the
proxy splits on "/", the standard library on ","): the pieces of `s` between
the separators, empty pieces included. As in Go, a string without the
separator, the empty string included, gives the one-element list of that
string, so the result is never empty (`Split_ne_nil`). -/
def Split (sep : Char) : GoString → List GoString
  | [] => [[]]
  | c :: cs =>
    if c = sep then [] :: Split sep cs
    else match Split sep cs with
      | [] => [[c]]
      | p :: ps => (c :: p) :: ps

/-- Go `strings.Join(parts, sep)`. -/
def Join (sep : GoString) : List GoString → GoString
  | [] => []
  | [p] => p
  | p :: q :: ps => p ++ sep ++ Join sep (q :: ps)

/-- Go `strings.Contains(s, sub)`. -/
def Contains : GoString → GoString → Bool
  | [], sub => sub.isPrefixOf []
  | c :: cs, sub => sub.isPrefixOf (c :: cs) || Contains cs sub

/-! ## `internal/proxy/proxy.go`: the descriptor -/

/-- The struct `DomainProxyConfig`. -/
structure DomainProxyConfig where
  ProxyPort : GoString
  TargetDomain : GoString
  TargetScheme : GoString
  PreservePath : Bool
  deriving DecidableEq, Repr

/-! ## `net/http`: the parts of a request the proxy reads or writes -/

/-- Go `http.Header`, a `map[string][]string`. -/
abbrev Header := GoString → Option (List GoString)

/-- The fields of `url.URL` the proxy and the standard director touch. -/
structure URL where
  Scheme : GoString
  Host : GoString
  Path : GoString
  RawPath : GoString
  RawQuery : GoString
  deriving DecidableEq, Repr

/-- The fields of `http.Request` the proxy and the standard director touch. -/
structure Request where
  Method : GoString
  URL : URL
  Host : GoString
  Header : Header
  RemoteAddr : GoString

/-- The request `r` with `r.URL.Path = path`. -/
def Request.setPath (r : Request) (path : GoString) : Request :=
  { r with URL := { r.URL with Path := path } }

/-! ## `internal/proxy/mulproxy.go`: the prefix router -/

/-- The struct `MultiDomainProxy`. -/
structure MultiDomainProxy where
  port : GoString
  domains : GoString → Option DomainProxyConfig

/-- `NewMultiDomainProxy(port)`: a router with an empty map. -/
def NewMultiDomainProxy (port : GoString) : MultiDomainProxy :=
  { port := port, domains := fun _ => none }

/-- `(m *MultiDomainProxy) AddDomain(path, config)`: `m.domains[path] = config`. -/
def MultiDomainProxy.AddDomain (m : MultiDomainProxy) (path : GoString)
    (config : DomainProxyConfig) : MultiDomainProxy :=
  { m with domains := fun k => if k = path then some config else m.domains k }

/-- What a handler wrote to the `http.ResponseWriter`: one status and one body. -/
structure Response where
  status : Nat
  body : GoString
  deriving DecidableEq, Repr

/-- Go `http.Error(w, msg, code)`: status `code`, body `msg` and a newline. -/
def httpError (msg : GoString) (code : Nat) : Response :=
  { status := code, body := msg ++ "\n".toList }

/-- What `MultiDomainProxy.ServeHTTP` does with the response writer: either it
answers itself through `http.Error`, or it builds `NewDomainProxy(config)` and
calls its `ServeHTTP` with the request. -/
inductive Action where
  | reply (resp : Response)
  | forward (config : DomainProxyConfig)
  deriving DecidableEq, Repr

/-- The result of one call of `MultiDomainProxy.ServeHTTP`: the request as the
call leaves it, and what was done with it. -/
structure Served where
  req : Request
  action : Action

/-- Status code `http.StatusBadRequest`. -/
def StatusBadRequest : Nat := 400
/-- Status code `http.StatusNotFound`. -/
def StatusNotFound : Nat := 404
/-- Status code `http.StatusBadGateway`. -/
def StatusBadGateway : Nat := 502
/-- Status code `http.StatusGatewayTimeout`. -/
def StatusGatewayTimeout : Nat := 504

/-- The list `pathParts` of `ServeHTTP`:
`strings.Split(strings.TrimPrefix(r.URL.Path, "/"), "/")`. -/
def pathParts (path : GoString) : List GoString :=
  Split '/' (TrimPrefix path "/".toList)

/-- `(m *MultiDomainProxy) ServeHTTP(w, r)`. `parts` is the local `pathParts`,
`parts.headD []` is `pathParts[0]` (read only when the list is not empty) and
`parts.drop 1` is `pathParts[1:]`. -/
def MultiDomainProxy.ServeHTTP (m : MultiDomainProxy) (r : Request) : Served :=
  let parts := pathParts r.URL.Path
  if parts.length = 0 then
    { req := r, action := .reply (httpError "Invalid path".toList StatusBadRequest) }
  else
    let domainKey := parts.headD []
    match m.domains domainKey with
    | none =>
      { req := r,
        action := .reply
          (httpError ("No proxy configured for path: ".toList ++ domainKey) StatusNotFound) }
    | some config =>
      if parts.length > 1 then
        { req := r.setPath ("/".toList ++ Join "/".toList (parts.drop 1)),
          action := .forward config }
      else
        { req := r.setPath "/".toList, action := .forward config }

/-! ## `net/textproto` and `net/http`: header keys -/

/-- Go `textproto.validHeaderFieldByte`: the token characters of RFC 7230. -/
def validHeaderFieldByte (c : Char) : Bool :=
  c.isAlphanum ||
    [ '!', '#', '$', '%', '&', Char.ofNat 39, '*', '+', '-', '.', '^', '_',
      Char.ofNat 96, '|', '~' ].contains c

/-- The case-mapping loop of Go `textproto.canonicalMIMEHeaderKey`: upper case
for the first letter and for a letter after a dash, lower case for the others. -/
def canonicalLoop : Bool → GoString → GoString
  | _, [] => []
  | upper, c :: cs =>
    let d := if upper && c.isLower then c.toUpper
             else if !upper && c.isUpper then c.toLower else c
    d :: canonicalLoop (d == '-') cs

/-- Go `textproto.CanonicalMIMEHeaderKey(s)`: the canonical spelling of a header
name; a string holding a character that is not a token character is returned
unchanged. -/
def CanonicalMIMEHeaderKey (s : GoString) : GoString :=
  if s.all validHeaderFieldByte then canonicalLoop true s else s

/-- Go `http.Header.Set(key, value)`: `h[CanonicalMIMEHeaderKey(key)] = []string{value}`. -/
def Header.Set (h : Header) (key value : GoString) : Header :=
  fun k => if k = CanonicalMIMEHeaderKey key then some [value] else h k

/-- Go `http.Header.Del(key)`: `delete(h, CanonicalMIMEHeaderKey(key))`. -/
def Header.Del (h : Header) (key : GoString) : Header :=
  fun k => if k = CanonicalMIMEHeaderKey key then none else h k

/-! ## `net/http/httputil`: the director of `NewSingleHostReverseProxy`

`NewDomainProxy` keeps this director as `originalDirector`. It is
`rewriteRequestURL(req, target)` of the Go standard library (Go 1.20 and
later). `url.URL.EscapedPath` is not modelled: it is the parameter
`EscapedPath`. -/

/-- Go `httputil.singleJoiningSlash(a, b)`. -/
def singleJoiningSlash (a b : GoString) : GoString :=
  let aslash := HasSuffix a "/".toList
  let bslash := HasPrefix b "/".toList
  if aslash && bslash then a ++ b.drop 1
  else if !aslash && !bslash then a ++ "/".toList ++ b
  else a ++ b

/-- Go `httputil.joinURLPath(a, b)`: the joined `Path` and `RawPath`. -/
def joinURLPath (EscapedPath : URL → GoString) (a b : URL) : GoString × GoString :=
  if a.RawPath = [] ∧ b.RawPath = [] then
    (singleJoiningSlash a.Path b.Path, [])
  else
    let apath := EscapedPath a
    let bpath := EscapedPath b
    let aslash := HasSuffix apath "/".toList
    let bslash := HasPrefix bpath "/".toList
    if aslash && bslash then (a.Path ++ b.Path.drop 1, apath ++ bpath.drop 1)
    else if !aslash && !bslash then
      (a.Path ++ "/".toList ++ b.Path, apath ++ "/".toList ++ bpath)
    else (a.Path ++ b.Path, apath ++ bpath)

/-- Go `httputil.rewriteRequestURL(req, target)`. -/
def rewriteRequestURL (EscapedPath : URL → GoString) (req : Request) (target : URL) :
    Request :=
  let targetQuery := target.RawQuery
  let joined := joinURLPath EscapedPath target req.URL
  let rawQuery :=
    if targetQuery = [] ∨ req.URL.RawQuery = [] then targetQuery ++ req.URL.RawQuery
    else targetQuery ++ "&".toList ++ req.URL.RawQuery
  { req with
    URL := { Scheme := target.Scheme, Host := target.Host, Path := joined.1,
             RawPath := joined.2, RawQuery := rawQuery } }

/-! ## `internal/proxy/proxy.go`: the single-backend forwarder -/

/-- The struct `DomainProxy`. Its `reverseProxy` field is determined by the
configuration: it is the reverse proxy whose director is `Director config` and
whose error handler is `ErrorHandler config`. -/
structure DomainProxy where
  config : DomainProxyConfig
  deriving DecidableEq, Repr

/-- The local `targetURL` of `NewDomainProxy`. -/
def targetURL (config : DomainProxyConfig) : URL :=
  { Scheme := config.TargetScheme, Host := config.TargetDomain,
    Path := [], RawPath := [], RawQuery := [] }

/-- `NewDomainProxy(config)`. It checks nothing and cannot fail. -/
def NewDomainProxy (config : DomainProxyConfig) : DomainProxy :=
  { config := config }

/-- The function `proxy.Director` that `NewDomainProxy` installs. -/
def Director (EscapedPath : URL → GoString) (config : DomainProxyConfig) (req : Request) :
    Request :=
  let req := rewriteRequestURL EscapedPath req (targetURL config)
  let req := { req with Host := config.TargetDomain }
  let req := { req with Header := Header.Set req.Header "Host".toList config.TargetDomain }
  let req := { req with Header := Header.Del req.Header "X-Forwarded-For".toList }
  { req with Header := Header.Del req.Header "X-Real-IP".toList }

/-- The function `proxy.ErrorHandler` that `NewDomainProxy` installs. The error
`err` is given by its text `err.Error()`. -/
def ErrorHandler (config : DomainProxyConfig) (err : GoString) : Response :=
  if Contains err "no such host".toList then
    httpError ("Domain ".toList ++ config.TargetDomain ++ " cannot be resolved".toList)
      StatusBadGateway
  else if Contains err "connection refused".toList then
    httpError ("Domain ".toList ++ config.TargetDomain ++ " is unreachable".toList)
      StatusBadGateway
  else if Contains err "timeout".toList then
    httpError ("Request to ".toList ++ config.TargetDomain ++ " timed out".toList)
      StatusGatewayTimeout
  else
    httpError ("Proxy error: ".toList ++ err) StatusBadGateway

/-! ## `net/http/httputil`: what `ReverseProxy.ServeHTTP` does after the director

`(p *DomainProxy) ServeHTTP` calls `p.reverseProxy.ServeHTTP(w, r)`. With a
`Director` set (and no `Rewrite`), the standard library clones the request,
runs the director on the clone, removes the hop-by-hop headers, sets
`X-Forwarded-For` from the address of the client and then hands the clone to
the transport. The steps that put back `Te`, `Connection` and `Upgrade` for
trailers and protocol upgrades write those three keys only and are left out. -/

/-- Go `textproto.isASCIISpace`. -/
def isASCIISpace (b : Char) : Bool :=
  b == ' ' || b == '\t' || b == '\n' || b == '\r'

/-- Go `textproto.TrimString(s)`. -/
def TrimString (s : GoString) : GoString :=
  (s.dropWhile isASCIISpace).rdropWhile isASCIISpace

/-- Go `httputil.hopHeaders`. -/
def hopHeaders : List GoString :=
  [ "Connection".toList, "Proxy-Connection".toList, "Keep-Alive".toList,
    "Proxy-Authenticate".toList, "Proxy-Authorization".toList, "Te".toList,
    "Trailer".toList, "Transfer-Encoding".toList, "Upgrade".toList ]

/-- Go `httputil.removeHopByHopHeaders(h)`: deletes the headers named in the
values of `Connection`, then the headers of `hopHeaders`. -/
def removeHopByHopHeaders (h : Header) : Header :=
  let named :=
    (((h "Connection".toList).getD []).map
      (fun f => ((Split ',' f).map TrimString).filter (fun sf => sf != []))).flatten
  hopHeaders.foldl Header.Del (named.foldl Header.Del h)

/-- Go `net.SplitHostPort(hostport)`: host and port of "host:port" or
"[host]:port", `none` where Go returns an error. -/
def SplitHostPort (hostport : GoString) : Option (GoString × GoString) :=
  match hostport.reverse.indexOf? ':' with
  | none => none
  | some fromEnd =>
    let i := hostport.length - 1 - fromEnd
    if hostport.head? = some '[' then
      match hostport.indexOf? ']' with
      | none => none
      | some close =>
        if close + 1 = i then
          if (hostport.drop 1).contains '[' then none
          else if (hostport.drop (close + 1)).contains ']' then none
          else some ((hostport.take close).drop 1, hostport.drop (i + 1))
        else none
    else
      let host := hostport.take i
      if host.contains ':' then none
      else if hostport.contains '[' then none
      else if hostport.contains ']' then none
      else some (host, hostport.drop (i + 1))

/-- The `X-Forwarded-For` block of `ReverseProxy.ServeHTTP`: when the address of
the client splits into host and port, the host is appended to the values the
outbound request already has under `X-Forwarded-For`, or set alone when the
key is absent; a key that is present with a nil value is left as it is. The
entry `some []` stands for Go's nil value; a present, empty, non-nil slice,
for which Go sets the host alone, has no counterpart in `Header`. After the
director of `NewDomainProxy` the key is absent. -/
def setForwardedFor (remoteAddr : GoString) (h : Header) : Header :=
  match SplitHostPort remoteAddr with
  | none => h
  | some (clientIP, _) =>
    match h "X-Forwarded-For".toList with
    | some [] => h
    | some prior =>
      Header.Set h "X-Forwarded-For".toList
        (Join ", ".toList prior ++ ", ".toList ++ clientIP)
    | none => Header.Set h "X-Forwarded-For".toList clientIP

/-- The `User-Agent` block of `ReverseProxy.ServeHTTP`: an absent key is set to
the empty string, so that the transport sends no default `User-Agent`. -/
def setUserAgent (h : Header) : Header :=
  match h "User-Agent".toList with
  | none => Header.Set h "User-Agent".toList []
  | some _ => h

/-- `(p *DomainProxy) ServeHTTP(w, r)` up to the call of the transport: the
headers, host and URL of the request the reverse proxy of
`NewDomainProxy(config)` sends to the backend for the inbound request `r`,
apart from the keys `Te`, `Connection` and `Upgrade`. The standard library
sets `Te: trailers` again when the inbound request announced trailers, sets
`Connection: Upgrade` and `Upgrade` again for a protocol upgrade, and answers
through the error handler instead of sending when the upgrade type is not
printable; these steps are not part of this definition. -/
def DomainProxy.outbound (EscapedPath : URL → GoString) (p : DomainProxy) (r : Request) :
    Request :=
  let outreq := Director EscapedPath p.config r
  let outreq := { outreq with Header := removeHopByHopHeaders outreq.Header }
  let outreq := { outreq with Header := setForwardedFor r.RemoteAddr outreq.Header }
  { outreq with Header := setUserAgent outreq.Header }

/-! ## `main.go`: registration at startup -/

/-- Modelled from the spec: the declaration of `configs.TargetDomain` is not
among the sources. One entry of the startup configuration has a prefix key, a
domain and a scheme; `main` reads them as `target.Key`, `target.Domain` and
`target.Schema`. -/
structure TargetDomain where
  Key : GoString
  Domain : GoString
  Schema : GoString
  deriving DecidableEq, Repr

/-- The descriptor `main` builds for one entry of the configuration. -/
def descriptorOf (target : TargetDomain) : DomainProxyConfig :=
  { ProxyPort := [], TargetDomain := target.Domain, TargetScheme := target.Schema,
    PreservePath := true }

/-- The router `main` starts once the configuration is loaded:
`NewMultiDomainProxy("8000")` and one `AddDomain` for each entry of
`cfg.TargetDomains`, in order. -/
def mainRouter (targetDomains : List TargetDomain) : MultiDomainProxy :=
  targetDomains.foldl (fun multiProxy target => multiProxy.AddDomain target.Key (descriptorOf target))
    (NewMultiDomainProxy "8000".toList)

/-! ## Notions of the specification -/

/-- The first path segment of a request path: the text between one optional
leading slash and the next slash. -/
def firstSegment (path : GoString) : GoString :=
  (TrimPrefix path "/".toList).takeWhile (fun c => c != '/')

/-- The first non-empty path segment of a request path, if it has one: the
first non-empty piece among the pieces between its slashes. -/
def firstNonEmptySegment (path : GoString) : Option GoString :=
  (Split '/' path).find? (fun seg => seg != [])

/-- A scheme the specification allows for a descriptor. -/
def validScheme (scheme : GoString) : Bool :=
  scheme == "http".toList || scheme == "https".toList

/-! ## Sample data -/

/-- A descriptor as `main` builds it for the entry `api -> https://api.example.com`. -/
def sampleConfig : DomainProxyConfig :=
  { ProxyPort := [], TargetDomain := "api.example.com".toList,
    TargetScheme := "https".toList, PreservePath := true }

/-- The headers of the sample request, under the canonical keys the server
stores them with. -/
def sampleHeader : Header := fun k =>
  if k = "Authorization".toList then some ["Bearer abc123".toList]
  else if k = "X-Forwarded-For".toList then some ["198.51.100.1".toList]
  else if k = "X-Real-Ip".toList then some ["198.51.100.1".toList]
  else none

/-- A request as the server hands it to the handler: `GET /api/v1/users` from
the client at 203.0.113.7. -/
def sampleRequest : Request :=
  { Method := "GET".toList,
    URL := { Scheme := [], Host := [], Path := "/api/v1/users".toList, RawPath := [],
             RawQuery := [] },
    Host := "proxy.example.org".toList,
    Header := sampleHeader,
    RemoteAddr := "203.0.113.7:51000".toList }

/-- A stand-in for `url.URL.EscapedPath` on the sample data. -/
def samplePath (u : URL) : GoString := u.Path

/-- The router with the single key "api". -/
def sampleRouter : MultiDomainProxy :=
  (NewMultiDomainProxy "8000".toList).AddDomain "api".toList sampleConfig

/-- The router with the single key "a/b", a key that holds a slash. -/
def slashKeyRouter : MultiDomainProxy :=
  (NewMultiDomainProxy "8000".toList).AddDomain "a/b".toList sampleConfig

/-- A configuration entry with an empty domain and the scheme "ftp". -/
def badTarget : TargetDomain :=
  { Key := "x".toList, Domain := [], Schema := "ftp".toList }

/-- The configuration entry `api -> https://api.example.com`. -/
def apiTarget : TargetDomain :=
  { Key := "api".toList, Domain := "api.example.com".toList, Schema := "https".toList }

/-- The text of the error of a failed lookup of the host "timeout.internal". -/
def lookupError : GoString := "dial tcp: lookup timeout.internal: no such host".toList

/-! ## Lemmas on `Split` and `Join` -/

theorem Split_ne_nil (sep : Char) (s : GoString) : Split sep s ≠ [] := by
  induction s with
  | nil => simp [Split]
  | cons c cs ih =>
    unfold Split
    split
    · simp
    · split <;> simp

theorem Split_of_not_mem (sep : Char) (p : GoString) (hp : sep ∉ p) : Split sep p = [p] := by
  induction p with
  | nil => rfl
  | cons c cs ih =>
    have hc : c ≠ sep := fun h => hp (by simp [h])
    have hcs : sep ∉ cs := fun h => hp (by simp [h])
    simp [Split, hc, ih hcs]

theorem Split_append_sep (sep : Char) (p r : GoString) (hp : sep ∉ p) :
    Split sep (p ++ sep :: r) = p :: Split sep r := by
  induction p with
  | nil => simp [Split]
  | cons c cs ih =>
    have hc : c ≠ sep := fun h => hp (by simp [h])
    have hcs : sep ∉ cs := fun h => hp (by simp [h])
    simp [Split, hc, ih hcs]

theorem Join_cons_Split (sep : Char) (p s : GoString) :
    Join [sep] (p :: Split sep s) = p ++ sep :: Join [sep] (Split sep s) := by
  cases h : Split sep s with
  | nil => exact absurd h (Split_ne_nil sep s)
  | cons q qs => simp [Join]

theorem Join_Split (sep : Char) (s : GoString) : Join [sep] (Split sep s) = s := by
  induction s with
  | nil => rfl
  | cons c cs ih =>
    unfold Split
    split
    · next h => rw [Join_cons_Split, ih, h]; rfl
    · cases h : Split sep cs with
      | nil => exact absurd h (Split_ne_nil sep cs)
      | cons q qs =>
        rw [h] at ih
        cases qs with
        | nil => simp [Join] at ih ⊢; exact ih
        | cons q2 qs2 => simp [Join] at ih ⊢; exact ih

theorem Split_head (sep : Char) (s : GoString) :
    ∃ rest, Split sep s = s.takeWhile (fun c => c != sep) :: rest := by
  induction s with
  | nil => exact ⟨[], rfl⟩
  | cons c cs ih =>
    obtain ⟨rest, h⟩ := ih
    by_cases hc : c = sep
    · exact ⟨Split sep cs, by simp [Split, hc]⟩
    · exact ⟨rest, by simp [Split, hc, h]⟩

theorem TrimPrefix_slash (s : GoString) : TrimPrefix ('/' :: s) "/".toList = s := by
  simp [TrimPrefix, HasPrefix]

/-! ## Lemmas on the router -/

theorem pathParts_eq (path : GoString) :
    ∃ rest, pathParts path = firstSegment path :: rest :=
  Split_head '/' (TrimPrefix path "/".toList)

theorem pathParts_prefix_rest (p r : GoString) (hp : '/' ∉ p) :
    pathParts ('/' :: p ++ '/' :: r) = p :: Split '/' r := by
  have h : pathParts ('/' :: (p ++ '/' :: r)) = p :: Split '/' r := by
    unfold pathParts
    rw [TrimPrefix_slash, Split_append_sep '/' p r hp]
  simpa using h

theorem pathParts_prefix_alone (p : GoString) (hp : '/' ∉ p) :
    pathParts ('/' :: p) = [p] := by
  unfold pathParts
  rw [TrimPrefix_slash, Split_of_not_mem '/' p hp]

theorem ServeHTTP_action (m : MultiDomainProxy) (r : Request) :
    (m.ServeHTTP r).action =
      match m.domains (firstSegment r.URL.Path) with
      | none =>
        .reply (httpError ("No proxy configured for path: ".toList ++ firstSegment r.URL.Path)
          StatusNotFound)
      | some config => .forward config := by
  obtain ⟨rest, h⟩ := pathParts_eq r.URL.Path
  unfold MultiDomainProxy.ServeHTTP
  simp only [h]
  cases hd : m.domains (firstSegment r.URL.Path) with
  | none => simp [hd]
  | some config =>
    simp only [List.headD_cons, hd, List.length_cons]
    by_cases hr : 0 < rest.length <;> simp [hr]

theorem ServeHTTP_req_of_absent (m : MultiDomainProxy) (r : Request)
    (habs : m.domains (firstSegment r.URL.Path) = none) : (m.ServeHTTP r).req = r := by
  obtain ⟨rest, h⟩ := pathParts_eq r.URL.Path
  unfold MultiDomainProxy.ServeHTTP
  simp [h, habs]

theorem ServeHTTP_forward_rest (m : MultiDomainProxy) (r : Request) (key q : GoString)
    (qs : List GoString) (c : DomainProxyConfig)
    (hparts : pathParts r.URL.Path = key :: q :: qs) (hreg : m.domains key = some c) :
    (m.ServeHTTP r).action = .forward c ∧
    (m.ServeHTTP r).req = r.setPath ('/' :: Join ['/'] (q :: qs)) := by
  unfold MultiDomainProxy.ServeHTTP
  simp only [hparts]
  simp [hreg]

theorem ServeHTTP_forward_alone (m : MultiDomainProxy) (r : Request) (key : GoString)
    (c : DomainProxyConfig)
    (hparts : pathParts r.URL.Path = [key]) (hreg : m.domains key = some c) :
    (m.ServeHTTP r).action = .forward c ∧ (m.ServeHTTP r).req = r.setPath ['/'] := by
  unfold MultiDomainProxy.ServeHTTP
  simp only [hparts]
  simp [hreg]

theorem setPath_setPath (r : Request) (a b : GoString) :
    (r.setPath a).setPath b = r.setPath b := rfl

/-! ## Claims on the prefix router -/

/-- C1, as amended. For every router `m`, every key `p` without a slash that is
registered with descriptor `c`, and every remainder `r`: on the path "/p/r"
`ServeHTTP` forwards with `c` and the forwarded request has path "/r"; on the
path "/p" it forwards with `c` and the forwarded request has path "/". -/
theorem ServeHTTP_strips_prefix (m : MultiDomainProxy) (p r : GoString)
    (c : DomainProxyConfig) (req : Request) (hp : '/' ∉ p) (hreg : m.domains p = some c) :
    (m.ServeHTTP (req.setPath ('/' :: p ++ '/' :: r))).action = .forward c ∧
    (m.ServeHTTP (req.setPath ('/' :: p ++ '/' :: r))).req = req.setPath ('/' :: r) ∧
    (m.ServeHTTP (req.setPath ('/' :: p))).action = .forward c ∧
    (m.ServeHTTP (req.setPath ('/' :: p))).req = req.setPath "/".toList := by
  have h2 : pathParts (req.setPath ('/' :: p)).URL.Path = [p] := pathParts_prefix_alone p hp
  have hj : Join ['/'] (Split '/' r) = r := Join_Split '/' r
  obtain ⟨a2, b2⟩ := ServeHTTP_forward_alone m _ p c h2 hreg
  cases hs : Split '/' r with
  | nil => exact absurd hs (Split_ne_nil '/' r)
  | cons q qs =>
    have h1 : pathParts (req.setPath ('/' :: p ++ '/' :: r)).URL.Path = p :: q :: qs := by
      rw [← hs]; exact pathParts_prefix_rest p r hp
    obtain ⟨a1, b1⟩ := ServeHTTP_forward_rest m _ p q qs c h1 hreg
    rw [← hs, hj, setPath_setPath] at b1
    rw [setPath_setPath] at b2
    exact ⟨a1, b1, a2, b2⟩

/-- C1, an instance of the amended claim: the key "api" and the remainder "v1/users". -/
theorem ServeHTTP_strips_prefix_witness :
    '/' ∉ "api".toList ∧ sampleRouter.domains "api".toList = some sampleConfig ∧
    ((sampleRouter.ServeHTTP
        (sampleRequest.setPath ('/' :: "api".toList ++ '/' :: "v1/users".toList))).action
        = .forward sampleConfig ∧
     (sampleRouter.ServeHTTP
        (sampleRequest.setPath ('/' :: "api".toList ++ '/' :: "v1/users".toList))).req
        = sampleRequest.setPath ('/' :: "v1/users".toList) ∧
     (sampleRouter.ServeHTTP (sampleRequest.setPath ('/' :: "api".toList))).action
        = .forward sampleConfig ∧
     (sampleRouter.ServeHTTP (sampleRequest.setPath ('/' :: "api".toList))).req
        = sampleRequest.setPath "/".toList) :=
  ⟨by decide, by decide,
    ServeHTTP_strips_prefix sampleRouter "api".toList "v1/users".toList sampleConfig
      sampleRequest (by decide) (by decide)⟩

/-- C1, as stated, fails for a registered key that holds a slash: with the key
"a/b" registered, the request path "/a/b/x" is answered 404 for the segment
"a" and is not forwarded. -/
theorem ServeHTTP_slash_key_not_routed :
    slashKeyRouter.domains "a/b".toList = some sampleConfig ∧
    (slashKeyRouter.ServeHTTP (sampleRequest.setPath "/a/b/x".toList)).action
      = .reply { status := 404, body := "No proxy configured for path: a\n".toList } := by
  decide

/-- C2. For every router and every request whose first path segment is not a
registered key, `ServeHTTP` answers 404 with a body that contains that
segment, forwards nothing and leaves the request as it was. -/
theorem ServeHTTP_unknown_prefix (m : MultiDomainProxy) (r : Request)
    (habs : m.domains (firstSegment r.URL.Path) = none) :
    (∃ body, (m.ServeHTTP r).action = .reply { status := 404, body := body } ∧
      firstSegment r.URL.Path <:+: body) ∧
    (∀ c, (m.ServeHTTP r).action ≠ .forward c) ∧
    (m.ServeHTTP r).req = r ∧ (m.ServeHTTP r).req.URL.Path = r.URL.Path := by
  have ha := ServeHTTP_action m r
  rw [habs] at ha
  have hr := ServeHTTP_req_of_absent m r habs
  refine ⟨⟨_, ha, ?_⟩, ?_, hr, by rw [hr]⟩
  · exact ⟨"No proxy configured for path: ".toList, "\n".toList, by simp⟩
  · intro c hc
    rw [ha] at hc
    cases hc

/-- C2, an instance: the path "/unknownthing" on the router that knows "api". -/
theorem ServeHTTP_unknown_prefix_witness :
    sampleRouter.domains (firstSegment (sampleRequest.setPath "/unknownthing".toList).URL.Path)
      = none ∧
    ((∃ body, (sampleRouter.ServeHTTP (sampleRequest.setPath "/unknownthing".toList)).action
        = .reply { status := 404, body := body } ∧
      firstSegment (sampleRequest.setPath "/unknownthing".toList).URL.Path <:+: body) ∧
    (∀ c, (sampleRouter.ServeHTTP (sampleRequest.setPath "/unknownthing".toList)).action
        ≠ .forward c) ∧
    (sampleRouter.ServeHTTP (sampleRequest.setPath "/unknownthing".toList)).req
        = sampleRequest.setPath "/unknownthing".toList ∧
    (sampleRouter.ServeHTTP (sampleRequest.setPath "/unknownthing".toList)).req.URL.Path
        = (sampleRequest.setPath "/unknownthing".toList).URL.Path) :=
  ⟨by decide,
    ServeHTTP_unknown_prefix sampleRouter (sampleRequest.setPath "/unknownthing".toList)
      (by decide)⟩

/-- C3, what the code does: on the path "/" and on the empty path `ServeHTTP`
looks up the empty key. It answers 404 when the empty key is not registered
and forwards when it is; it never answers 400. On the sample router, which
knows the key "api" only, the path "/" is answered 404. -/
theorem ServeHTTP_root_path (m : MultiDomainProxy) (req : Request) :
    (m.ServeHTTP (req.setPath "/".toList)).action =
      (match m.domains [] with
       | none => .reply { status := 404, body := "No proxy configured for path: \n".toList }
       | some c => .forward c) ∧
    (m.ServeHTTP (req.setPath [])).action =
      (match m.domains [] with
       | none => .reply { status := 404, body := "No proxy configured for path: \n".toList }
       | some c => .forward c) ∧
    (sampleRouter.ServeHTTP (sampleRequest.setPath "/".toList)).action
      = .reply { status := 404, body := "No proxy configured for path: \n".toList } := by
  refine ⟨?_, ?_, by decide⟩
  · rw [ServeHTTP_action]
    have : firstSegment (req.setPath "/".toList).URL.Path = [] := by
      simp [Request.setPath, firstSegment, TrimPrefix, HasPrefix]
    rw [this]
    cases m.domains [] <;> simp [httpError, StatusNotFound]
  · rw [ServeHTTP_action]
    have : firstSegment (req.setPath []).URL.Path = [] := by
      simp [Request.setPath, firstSegment, TrimPrefix, HasPrefix]
    rw [this]
    cases m.domains [] <;> simp [httpError, StatusNotFound]

theorem firstNonEmptySegment_of_firstSegment (path : GoString)
    (hne : firstSegment path ≠ []) :
    firstNonEmptySegment path = some (firstSegment path) := by
  unfold firstNonEmptySegment
  cases path with
  | nil => simp [firstSegment, TrimPrefix, HasPrefix] at hne
  | cons c cs =>
    by_cases hc : c = '/'
    · subst hc
      have hfs : firstSegment ('/' :: cs) = cs.takeWhile (fun c => c != '/') := by
        unfold firstSegment
        rw [TrimPrefix_slash]
      rw [hfs] at hne ⊢
      obtain ⟨rest, h⟩ := Split_head '/' cs
      simp [Split, h, hne]
    · have htp : TrimPrefix (c :: cs) "/".toList = c :: cs := by
        have hc2 : ¬ '/' = c := fun h => hc h.symm
        simp [TrimPrefix, HasPrefix, hc2]
      have hfs : firstSegment (c :: cs) = (c :: cs).takeWhile (fun c => c != '/') := by
        unfold firstSegment
        rw [htp]
      rw [hfs] at hne ⊢
      obtain ⟨rest, h⟩ := Split_head '/' (c :: cs)
      rw [h]
      generalize List.takeWhile (fun c => c != '/') (c :: cs) = seg at hne
      have hb : (seg != []) = true := by simpa using hne
      simp only [List.find?, hb]

/-- C4, as amended. The key `ServeHTTP` looks up is the first segment of the
path once one leading slash is removed, empty or not: the answer is 404 naming
that segment when the map has no such key, and a forward with the descriptor
of that key when it has. Whenever that segment is not empty, it is the first
non-empty segment of the path. -/
theorem ServeHTTP_looks_up_firstSegment (m : MultiDomainProxy) (r : Request) :
    (m.ServeHTTP r).action =
      (match m.domains (firstSegment r.URL.Path) with
       | none =>
         .reply (httpError ("No proxy configured for path: ".toList ++ firstSegment r.URL.Path)
           StatusNotFound)
       | some config => .forward config) ∧
    (firstSegment r.URL.Path ≠ [] →
      firstNonEmptySegment r.URL.Path = some (firstSegment r.URL.Path)) :=
  ⟨ServeHTTP_action m r, firstNonEmptySegment_of_firstSegment r.URL.Path⟩

/-- C4, an instance of the amended claim: the path "/api/v1/users" has the key "api". -/
theorem ServeHTTP_looks_up_firstSegment_witness :
    firstSegment sampleRequest.URL.Path ≠ [] ∧
    firstNonEmptySegment sampleRequest.URL.Path = some (firstSegment sampleRequest.URL.Path) ∧
    firstSegment sampleRequest.URL.Path = "api".toList :=
  ⟨by decide,
    (ServeHTTP_looks_up_firstSegment sampleRouter sampleRequest).2 (by decide),
    by decide⟩

/-- C4, as stated, fails on the path "//p/x": its first non-empty segment is
"p", and with "p" registered the request is still answered 404, because the
key that is looked up is the empty string. -/
theorem ServeHTTP_double_slash_key :
    firstNonEmptySegment "//p/x".toList = some "p".toList ∧
    ((NewMultiDomainProxy "8000".toList).AddDomain "p".toList sampleConfig).domains "p".toList
      = some sampleConfig ∧
    (((NewMultiDomainProxy "8000".toList).AddDomain "p".toList sampleConfig).ServeHTTP
        (sampleRequest.setPath "//p/x".toList)).action
      = .reply { status := 404, body := "No proxy configured for path: \n".toList } ∧
    (pathParts "//p/x".toList).headD [] = [] := by
  decide

/-! ## Claims on registration -/

/-- C9. For every router `m`, key `k` and descriptor `c`: after
`AddDomain(k, c)` the map holds `c` under `k`, every request whose first
segment is `k` is forwarded with `c`, and every other key is mapped as before. -/
theorem AddDomain_last_write_wins (m : MultiDomainProxy) (k : GoString)
    (c : DomainProxyConfig) :
    (m.AddDomain k c).domains k = some c ∧
    (∀ r : Request, firstSegment r.URL.Path = k →
      ((m.AddDomain k c).ServeHTTP r).action = .forward c) ∧
    (∀ k2, k2 ≠ k → (m.AddDomain k c).domains k2 = m.domains k2) := by
  have hk : (m.AddDomain k c).domains k = some c := by simp [MultiDomainProxy.AddDomain]
  refine ⟨hk, ?_, ?_⟩
  · intro r hr
    rw [ServeHTTP_action, hr, hk]
  · intro k2 hk2
    simp [MultiDomainProxy.AddDomain, hk2]

/-- C9, an instance: the key "api" of the sample router is registered again
with another descriptor; the request for "/api/v1/users" goes to the new
descriptor and the key "other" stays unmapped. -/
theorem AddDomain_last_write_wins_witness :
    firstSegment sampleRequest.URL.Path = "api".toList ∧
    "other".toList ≠ "api".toList ∧
    ((sampleRouter.AddDomain "api".toList (descriptorOf badTarget)).ServeHTTP
        sampleRequest).action = .forward (descriptorOf badTarget) ∧
    (sampleRouter.AddDomain "api".toList (descriptorOf badTarget)).domains "other".toList
      = sampleRouter.domains "other".toList :=
  ⟨by decide, by decide,
    (AddDomain_last_write_wins sampleRouter "api".toList (descriptorOf badTarget)).2.1
      sampleRequest (by decide),
    (AddDomain_last_write_wins sampleRouter "api".toList (descriptorOf badTarget)).2.2
      "other".toList (by decide)⟩

theorem mainRouter_domains (targets : List TargetDomain) (key : GoString) :
    (mainRouter targets).domains key =
      (targets.reverse.find? (fun t => t.Key == key)).map descriptorOf := by
  induction targets using List.reverseRecOn with
  | nil => rfl
  | append_singleton init t ih =>
    have hstep : (mainRouter (init ++ [t])).domains key =
        if key = t.Key then some (descriptorOf t) else (mainRouter init).domains key := by
      simp [mainRouter, List.foldl_append, MultiDomainProxy.AddDomain]
    rw [hstep, ih, List.reverse_append]
    by_cases hk : key = t.Key
    · subst hk
      simp [List.find?]
    · have hk2 : (t.Key == key) = false := by
        simp only [beq_eq_false_iff_ne]
        exact fun h => hk h.symm
      simp [List.find?, hk, hk2]

theorem mainRouter_not_replaced (before after : List TargetDomain) (t : TargetDomain)
    (hlater : ∀ u ∈ after, u.Key ≠ t.Key) :
    (mainRouter (before ++ t :: after)).domains t.Key = some (descriptorOf t) := by
  rw [mainRouter_domains]
  have hnone : after.reverse.find? (fun u => u.Key == t.Key) = none := by
    rw [List.find?_eq_none]
    intro u hu
    have := hlater u (List.mem_reverse.mp hu)
    simpa using this
  simp [List.reverse_append, List.find?_append, hnone, List.find?]

/-- C10, as amended. Construction and registration check nothing. For every
descriptor `c`, whatever its domain and scheme, `NewDomainProxy` builds the
forwarder of `c`, and `AddDomain(k, c)` stores `c` under `k` and changes no
other key, so that requests with first segment `k` are forwarded with `c`.
The startup loop of `main` registers every entry of the configuration,
whatever its domain and scheme: after it, the lookup of a key gives the
descriptor of the last entry with that key, and nothing when no entry has the
key; an entry `t` that no later entry replaces is the one requests with first
segment `t.Key` are forwarded with. -/
theorem registration_checks_nothing (m : MultiDomainProxy) (k : GoString)
    (c : DomainProxyConfig) (before after : List TargetDomain) (t : TargetDomain) :
    (NewDomainProxy c).config = c ∧
    (m.AddDomain k c).domains k = some c ∧
    (∀ k2, k2 ≠ k → (m.AddDomain k c).domains k2 = m.domains k2) ∧
    (∀ r : Request, firstSegment r.URL.Path = k →
      ((m.AddDomain k c).ServeHTTP r).action = .forward c) ∧
    (∀ (targets : List TargetDomain) (key : GoString),
      (mainRouter targets).domains key =
        (targets.reverse.find? (fun u => u.Key == key)).map descriptorOf) ∧
    ((∀ u ∈ after, u.Key ≠ t.Key) →
      (mainRouter (before ++ t :: after)).domains t.Key = some (descriptorOf t) ∧
      (∀ r : Request, firstSegment r.URL.Path = t.Key →
        ((mainRouter (before ++ t :: after)).ServeHTTP r).action
          = .forward (descriptorOf t))) := by
  have hk : (m.AddDomain k c).domains k = some c := by simp [MultiDomainProxy.AddDomain]
  refine ⟨rfl, hk, ?_, ?_, mainRouter_domains, ?_⟩
  · intro k2 hk2
    simp [MultiDomainProxy.AddDomain, hk2]
  · intro r hr
    rw [ServeHTTP_action, hr, hk]
  · intro hlater
    have hd := mainRouter_not_replaced before after t hlater
    refine ⟨hd, ?_⟩
    intro r hr
    rw [ServeHTTP_action, hr, hd]

/-- C10, an instance of the amended claim: the startup loop registers the entry
with an empty domain and the scheme "ftp" before the entry for "api"; requests
for "/x/y" are forwarded with the descriptor of the first entry and requests
for "/api/v1/users" with the descriptor of the second. -/
theorem registration_checks_nothing_witness :
    (∀ u ∈ [apiTarget], u.Key ≠ badTarget.Key) ∧
    firstSegment (sampleRequest.setPath "/x/y".toList).URL.Path = badTarget.Key ∧
    (mainRouter ([] ++ badTarget :: [apiTarget])).domains badTarget.Key
      = some (descriptorOf badTarget) ∧
    ((mainRouter ([] ++ badTarget :: [apiTarget])).ServeHTTP
        (sampleRequest.setPath "/x/y".toList)).action = .forward (descriptorOf badTarget) ∧
    (mainRouter [badTarget, apiTarget]).domains "api".toList = some (descriptorOf apiTarget) ∧
    (mainRouter [badTarget, apiTarget]).domains "other".toList = none :=
  ⟨by decide, by decide,
    ((registration_checks_nothing sampleRouter "x".toList (descriptorOf badTarget) []
      [apiTarget] badTarget).2.2.2.2.2 (by decide)).1,
    ((registration_checks_nothing sampleRouter "x".toList (descriptorOf badTarget) []
      [apiTarget] badTarget).2.2.2.2.2 (by decide)).2
      (sampleRequest.setPath "/x/y".toList) (by decide),
    by decide, by decide⟩

/-- C10, as stated, fails: the configuration entry with an empty domain and the
scheme "ftp", listed before a valid entry, is accepted by the startup loop,
and the request for "/x/y" reaches its descriptor and is forwarded with it. -/
theorem invalid_descriptor_is_served :
    (descriptorOf badTarget).TargetDomain = [] ∧
    validScheme (descriptorOf badTarget).TargetScheme = false ∧
    (NewDomainProxy (descriptorOf badTarget)).config = descriptorOf badTarget ∧
    (mainRouter [badTarget, apiTarget]).domains "x".toList = some (descriptorOf badTarget) ∧
    ((mainRouter [badTarget, apiTarget]).ServeHTTP
        (sampleRequest.setPath "/x/y".toList)).action = .forward (descriptorOf badTarget) ∧
    ((mainRouter [badTarget, apiTarget]).ServeHTTP sampleRequest).action
      = .forward (descriptorOf apiTarget) := by
  decide

/-! ## Claims on the single-backend forwarder -/

theorem canonical_Host : CanonicalMIMEHeaderKey "Host".toList = "Host".toList := by decide

theorem canonical_X_Forwarded_For :
    CanonicalMIMEHeaderKey "X-Forwarded-For".toList = "X-Forwarded-For".toList := by decide

theorem canonical_X_Real_IP :
    CanonicalMIMEHeaderKey "X-Real-IP".toList = "X-Real-Ip".toList := by decide

/-- C5. For every backend domain and every error text the handler writes one
response, chosen by the failure category of the error. The category is the
first of these that fits, in the order of the table of the specification: a
name-resolution failure, the text contains "no such host" (502, the domain
cannot be resolved); a connection refusal, the text contains "connection
refused" (502, the domain is unreachable); a timeout, the text contains
"timeout" (504, the request to the domain timed out); any other error (502,
the body holds the text of the error). -/
theorem ErrorHandler_first_match (config : DomainProxyConfig) (err : GoString) :
    (Contains err "no such host".toList = true →
      ErrorHandler config err =
        { status := 502,
          body := "Domain ".toList ++ config.TargetDomain ++ " cannot be resolved\n".toList }) ∧
    (Contains err "no such host".toList = false →
      Contains err "connection refused".toList = true →
      ErrorHandler config err =
        { status := 502,
          body := "Domain ".toList ++ config.TargetDomain ++ " is unreachable\n".toList }) ∧
    (Contains err "no such host".toList = false →
      Contains err "connection refused".toList = false →
      Contains err "timeout".toList = true →
      ErrorHandler config err =
        { status := 504,
          body := "Request to ".toList ++ config.TargetDomain ++ " timed out\n".toList }) ∧
    (Contains err "no such host".toList = false →
      Contains err "connection refused".toList = false →
      Contains err "timeout".toList = false →
      ErrorHandler config err =
        { status := 502, body := "Proxy error: ".toList ++ err ++ "\n".toList } ∧
      err <:+: (ErrorHandler config err).body) := by
  have hf : ∀ b : Bool, b = false → ¬ (b = true) := by
    intro b hb; simp [hb]
  refine ⟨?_, ?_, ?_, ?_⟩
  · intro h1
    unfold ErrorHandler
    rw [if_pos h1]
    simp [httpError, StatusBadGateway]
  · intro h1 h2
    unfold ErrorHandler
    rw [if_neg (hf _ h1), if_pos h2]
    simp [httpError, StatusBadGateway]
  · intro h1 h2 h3
    unfold ErrorHandler
    rw [if_neg (hf _ h1), if_neg (hf _ h2), if_pos h3]
    simp [httpError, StatusGatewayTimeout]
  · intro h1 h2 h3
    have he : ErrorHandler config err =
        { status := 502, body := "Proxy error: ".toList ++ err ++ "\n".toList } := by
      unfold ErrorHandler
      rw [if_neg (hf _ h1), if_neg (hf _ h2), if_neg (hf _ h3)]
      simp [httpError, StatusBadGateway]
    refine ⟨he, ?_⟩
    rw [he]
    exact ⟨"Proxy error: ".toList, "\n".toList, rfl⟩

/-- C5, instances: a refused connection, a timeout while waiting for the
headers, the failed lookup of a host named "timeout.internal" (a
name-resolution failure) and an error of no listed category. -/
theorem ErrorHandler_first_match_witness :
    ErrorHandler sampleConfig "dial tcp 192.0.2.1:443: connect: connection refused".toList =
      { status := 502, body := "Domain api.example.com is unreachable\n".toList } ∧
    ErrorHandler sampleConfig "net/http: timeout awaiting response headers".toList =
      { status := 504, body := "Request to api.example.com timed out\n".toList } ∧
    ErrorHandler sampleConfig lookupError =
      { status := 502, body := "Domain api.example.com cannot be resolved\n".toList } ∧
    ErrorHandler sampleConfig "EOF".toList =
      { status := 502, body := "Proxy error: EOF\n".toList } :=
  ⟨(ErrorHandler_first_match sampleConfig
      "dial tcp 192.0.2.1:443: connect: connection refused".toList).2.1
      (by decide) (by decide),
   (ErrorHandler_first_match sampleConfig
      "net/http: timeout awaiting response headers".toList).2.2.1
      (by decide) (by decide) (by decide),
   (ErrorHandler_first_match sampleConfig lookupError).1 (by decide),
   ((ErrorHandler_first_match sampleConfig "EOF".toList).2.2.2
      (by decide) (by decide) (by decide)).1⟩

/-- C6. For every inbound request and every header key other than the keys of
Host, X-Forwarded-For and X-Real-IP, the outbound request of the director has
under that key what the inbound request has: the same values when the key is
present, and no entry when it is absent. -/
theorem Director_keeps_other_headers (EscapedPath : URL → GoString)
    (config : DomainProxyConfig) (req : Request) (k : GoString)
    (h1 : k ≠ CanonicalMIMEHeaderKey "Host".toList)
    (h2 : k ≠ CanonicalMIMEHeaderKey "X-Forwarded-For".toList)
    (h3 : k ≠ CanonicalMIMEHeaderKey "X-Real-IP".toList) :
    (Director EscapedPath config req).Header k = req.Header k := by
  simp only [Director, rewriteRequestURL, Header.Set, Header.Del, if_neg h1, if_neg h2,
    if_neg h3]

/-- C6, an instance: the Authorization header of the sample request. -/
theorem Director_keeps_other_headers_witness :
    "Authorization".toList ≠ CanonicalMIMEHeaderKey "Host".toList ∧
    "Authorization".toList ≠ CanonicalMIMEHeaderKey "X-Forwarded-For".toList ∧
    "Authorization".toList ≠ CanonicalMIMEHeaderKey "X-Real-IP".toList ∧
    (Director samplePath sampleConfig sampleRequest).Header "Authorization".toList
      = sampleRequest.Header "Authorization".toList ∧
    sampleRequest.Header "Authorization".toList = some ["Bearer abc123".toList] :=
  ⟨by decide, by decide, by decide,
    Director_keeps_other_headers samplePath sampleConfig sampleRequest "Authorization".toList
      (by decide) (by decide) (by decide),
    by decide⟩

/-- C7. For every inbound request, the outbound request of the director has
`Host` and the Host header equal to the configured domain, the URL host equal
to that domain and the URL scheme equal to the configured scheme. -/
theorem Director_sets_host_and_scheme (EscapedPath : URL → GoString)
    (config : DomainProxyConfig) (req : Request) :
    (Director EscapedPath config req).Host = config.TargetDomain ∧
    (Director EscapedPath config req).Header "Host".toList = some [config.TargetDomain] ∧
    (Director EscapedPath config req).URL.Host = config.TargetDomain ∧
    (Director EscapedPath config req).URL.Scheme = config.TargetScheme := by
  refine ⟨rfl, ?_, rfl, rfl⟩
  have e1 : "Host".toList ≠ "X-Forwarded-For".toList := by decide
  have e2 : "Host".toList ≠ "X-Real-Ip".toList := by decide
  simp only [Director, Header.Set, Header.Del, canonical_Host, canonical_X_Forwarded_For,
    canonical_X_Real_IP, if_neg e1, if_neg e2, if_true]

theorem Director_deletes_forwarding_headers (EscapedPath : URL → GoString)
    (config : DomainProxyConfig) (req : Request) :
    (Director EscapedPath config req).Header "X-Forwarded-For".toList = none ∧
    (Director EscapedPath config req).Header "X-Real-Ip".toList = none := by
  have e2 : "X-Forwarded-For".toList ≠ "X-Real-Ip".toList := by decide
  constructor
  · simp only [Director, Header.Set, Header.Del, canonical_Host, canonical_X_Forwarded_For,
      canonical_X_Real_IP, if_neg e2, if_true]
  · simp only [Director, Header.Set, Header.Del, canonical_Host, canonical_X_Forwarded_For,
      canonical_X_Real_IP, if_true]

theorem foldl_Del_absent (keys : List GoString) (h : Header) (k : GoString)
    (hk : h k = none) : (keys.foldl Header.Del h) k = none := by
  induction keys generalizing h with
  | nil => exact hk
  | cons key keys ih =>
    apply ih
    unfold Header.Del
    split
    · rfl
    · exact hk

theorem removeHopByHopHeaders_absent (h : Header) (k : GoString) (hk : h k = none) :
    removeHopByHopHeaders h k = none := by
  unfold removeHopByHopHeaders
  exact foldl_Del_absent _ _ k (foldl_Del_absent _ _ k hk)

/-- For every descriptor and every inbound request whose client address splits
into host and port, the request sent to the backend carries `X-Forwarded-For`
with that host as its only value, and carries no `X-Real-IP`. -/
theorem outbound_forwarding_headers (EscapedPath : URL → GoString)
    (config : DomainProxyConfig) (r : Request) (ip port : GoString)
    (hs : SplitHostPort r.RemoteAddr = some (ip, port)) :
    ((NewDomainProxy config).outbound EscapedPath r).Header "X-Forwarded-For".toList
      = some [ip] ∧
    ((NewDomainProxy config).outbound EscapedPath r).Header "X-Real-Ip".toList = none := by
  obtain ⟨hx, hr⟩ := Director_deletes_forwarding_headers EscapedPath config r
  have hx2 := removeHopByHopHeaders_absent _ _ hx
  have hr2 := removeHopByHopHeaders_absent _ _ hr
  have e1 : "X-Forwarded-For".toList ≠ CanonicalMIMEHeaderKey "User-Agent".toList := by decide
  have e2 : "X-Real-Ip".toList ≠ CanonicalMIMEHeaderKey "User-Agent".toList := by decide
  have e3 : "X-Real-Ip".toList ≠ "X-Forwarded-For".toList := by decide
  have ua : ∀ (h : Header) (k : GoString), k ≠ CanonicalMIMEHeaderKey "User-Agent".toList →
      setUserAgent h k = h k := by
    intro h k hk
    unfold setUserAgent
    cases h "User-Agent".toList with
    | none => simp only [Header.Set, if_neg hk]
    | some v => rfl
  constructor
  · show setUserAgent (setForwardedFor r.RemoteAddr
      (removeHopByHopHeaders (Director EscapedPath config r).Header)) "X-Forwarded-For".toList
      = some [ip]
    rw [ua _ _ e1]
    unfold setForwardedFor
    simp only [hs, hx2, Header.Set, canonical_X_Forwarded_For, if_true]
  · show setUserAgent (setForwardedFor r.RemoteAddr
      (removeHopByHopHeaders (Director EscapedPath config r).Header)) "X-Real-Ip".toList
      = none
    rw [ua _ _ e2]
    unfold setForwardedFor
    simp only [hs, hx2, Header.Set, canonical_X_Forwarded_For, if_neg e3, hr2]

/-- C8, what the code does on the sample request (sent from 203.0.113.7 with
`X-Forwarded-For` and `X-Real-IP` set to 198.51.100.1): the director deletes
both headers, and the request the forwarder sends to the backend has no
`X-Real-IP` but has `X-Forwarded-For: 203.0.113.7`. -/
theorem outbound_has_X_Forwarded_For :
    sampleRequest.Header "X-Forwarded-For".toList = some ["198.51.100.1".toList] ∧
    (Director samplePath sampleConfig sampleRequest).Header "X-Forwarded-For".toList = none ∧
    (Director samplePath sampleConfig sampleRequest).Header "X-Real-Ip".toList = none ∧
    ((NewDomainProxy sampleConfig).outbound samplePath sampleRequest).Header "X-Real-Ip".toList
      = none ∧
    ((NewDomainProxy sampleConfig).outbound samplePath sampleRequest).Header
        "X-Forwarded-For".toList = some ["203.0.113.7".toList] := by
  decide

end ProxyServer
